import Mathlib

/-!
Verification of the session-management core (login / refresh / logout) of the
WMS repository, as implemented by `authRoutes` in the API's auth routes file.

The persistence layer (Prisma `users` / `refresh_tokens` tables) is embedded
as an explicit in-memory state `Db`; each HTTP handler becomes a pure function
from a state, a current instant (`Date.now()` in milliseconds) and the parsed
request body to a result together with the successor state.

The `@wms/auth` package (JWT signing / verification, bcrypt hashing) is not
part of the observed source; those functions are modelled from the spec, with
doc comments saying so.  Hashing is modelled as an injective encoding — the
only collisions representable in the model are genuine equalities of raw
token strings, which the real HS256 JWT signer also produces when it signs
identical claims at identical timestamps.
-/

/-- User role enumeration, from the Prisma `UserRole` enum. -/
inductive Role
  | superAdmin
  | admin
  | manager
  | staff
  deriving DecidableEq

/-- String form of a role, as stored in JWT claims. -/
def roleToString : Role → String
  | .superAdmin => "SUPER_ADMIN"
  | .admin => "ADMIN"
  | .manager => "MANAGER"
  | .staff => "STAFF"

/-- A row of the `users` table: identity, unique email, nullable password
hash, role and active flag (fields read by the auth routes). -/
structure User where
  id : String
  email : String
  name : String
  password : Option String
  role : Role
  active : Bool
  deriving DecidableEq

/-- A row of the `refresh_tokens` table: `token` holds the SHA-256 hex digest
of the raw refresh token (unique column), `expiresAt` / `revokedAt` /
`createdAt` are instants in milliseconds. -/
structure RefreshTokenRow where
  id : Nat
  token : String
  userId : String
  expiresAt : Int
  revokedAt : Option Int
  createdAt : Int
  deriving DecidableEq

/-- The persistent state visible to the auth routes: the `users` and
`refresh_tokens` tables, plus the id the next inserted row receives. -/
structure Db where
  users : List User
  tokens : List RefreshTokenRow
  nextId : Nat
  deriving DecidableEq

/-- A structured error response `{ status, error: { code, message } }`. -/
structure ErrResponse where
  status : Nat
  code : String
  message : String
  deriving DecidableEq

/-- The public user summary returned by login: exactly id, email, name and
role — the type has no field for the password hash. -/
structure UserSummary where
  id : String
  email : String
  name : String
  role : Role
  deriving DecidableEq

/-- Outcome of the login handler.  `threw` is an exception escaping the
handler (the handler has no try/catch; e.g. a unique-constraint violation on
the refresh-token insert propagates to the framework error handler). -/
inductive LoginResult
  | ok (accessToken : String) (refreshToken : String) (user : UserSummary)
  | err (e : ErrResponse)
  | threw
  deriving DecidableEq

/-- Outcome of the refresh handler.  Every exception inside its try block is
caught and mapped to a 401 response, so no `threw` case exists. -/
inductive RefreshResult
  | ok (accessToken : String) (refreshToken : String)
  | err (e : ErrResponse)
  deriving DecidableEq

/-- Outcome of the logout handler: always `{ success: true }`. -/
structure LogoutResult where
  success : Bool
  deriving DecidableEq

/-- JWT claim payload used by the auth routes: `{ id, email, role }`. -/
structure Claims where
  id : String
  email : String
  role : Role
  deriving DecidableEq

/-- Modelled from the spec: bcrypt password hashing with a fixed cost factor
of 12 (`hashPassword` of the missing `@wms/auth` package), modelled as an
injective tagged encoding of the plaintext. -/
def hashPassword (p : String) : String :=
  "bcrypt12(" ++ p ++ ")"

/-- Modelled from the spec: bcrypt comparison (`verifyPassword` of the
missing `@wms/auth` package) — true iff the stored hash is the hash of the
submitted plaintext. -/
def verifyPassword (plain stored : String) : Bool :=
  stored == hashPassword plain

/-- Modelled from the spec: `crypto.createHash("sha256").update(s).digest("hex")`,
modelled as an injective tagged encoding of the input. -/
def sha256Hex (s : String) : String :=
  "sha256:" ++ s

/-- Modelled from the spec: `signAccessToken` of the missing `@wms/auth`
package — a signed token encoding user id, email and role. -/
def signAccessToken (c : Claims) : String :=
  "at." ++ c.id ++ "." ++ c.email ++ "." ++ roleToString c.role

/-- Modelled from the spec: `signRefreshToken` of the missing `@wms/auth`
package — a signed token over the same claims.  Like a real HS256 JWT it is
a deterministic function of the claims and the issuance instant (`iat`). -/
def signRefreshToken (c : Claims) (iat : Int) : String :=
  "rt." ++ (c.id ++ "." ++ c.email ++ "." ++ roleToString c.role ++ "." ++ toString iat)

/-- Modelled from the spec: `verifyRefreshToken` of the missing `@wms/auth`
package throws on signature mismatch or malformed structure; only its
throw/no-throw behaviour is observable in the refresh handler (the decoded
payload is never used), so it is modelled as a recogniser of the refresh
token format. -/
def verifySig (t : String) : Bool :=
  "rt.".data.isPrefixOf t.data

/-- Milliseconds in 7 days: `7 * 24 * 60 * 60 * 1000`. -/
def sevenDaysMs : Int := 7 * 24 * 60 * 60 * 1000

/-- `prisma.user.findUnique({ where: { email } })`. -/
def findUserByEmail (db : Db) (email : String) : Option User :=
  db.users.find? (fun u => u.email == email)

/-- `prisma.refreshToken.findUnique({ where: { token } })` (lookup by the
unique hash column). -/
def findTokenByHash (db : Db) (h : String) : Option RefreshTokenRow :=
  db.tokens.find? (fun r => r.token == h)

/-- The `include: { user: true }` join: resolve a token row's owning user. -/
def findUserById (db : Db) (uid : String) : Option User :=
  db.users.find? (fun u => u.id == uid)

/-- Whether some stored row already holds hash `h` — the condition under
which `prisma.refreshToken.create` violates the unique constraint on
`token` and throws. -/
def hashExists (db : Db) (h : String) : Bool :=
  db.tokens.any (fun r => r.token == h)

/-- `prisma.refreshToken.create({ data: { token, userId, expiresAt } })` in
the non-conflicting case: appends one fresh, unrevoked row. -/
def insertToken (db : Db) (h uid : String) (expiresAt createdAt : Int) : Db :=
  { db with
      tokens := db.tokens ++ [⟨db.nextId, h, uid, expiresAt, none, createdAt⟩],
      nextId := db.nextId + 1 }

/-- `prisma.refreshToken.update({ where: { id }, data: { revokedAt: new Date() } })`:
sets `revokedAt` on the row keyed by `id` — unconditionally, with no guard on
the previous value of `revokedAt`. -/
def revokeById (db : Db) (rid : Nat) (now : Int) : Db :=
  { db with
      tokens := db.tokens.map
        (fun r => if r.id == rid then { r with revokedAt := some now } else r) }

/-- `prisma.refreshToken.updateMany({ where: { token }, data: { revokedAt: new Date() } })`:
sets `revokedAt` on every row holding hash `h` (also on already-revoked
rows, whose timestamp is overwritten). -/
def revokeAllByHash (db : Db) (h : String) (now : Int) : Db :=
  { db with
      tokens := db.tokens.map
        (fun r => if r.token == h then { r with revokedAt := some now } else r) }

/-- The `POST /login` handler body, after schema parsing.  Branch order and
response literals follow the source: user lookup by email, the combined
`!user || !user.password` check, `verifyPassword`, the `active` check, then
token issuance and the refresh-token insert.  The insert is not wrapped in
any try/catch, so a unique-constraint conflict escapes as `threw`. -/
def login (db : Db) (now : Int) (email password : String) : LoginResult × Db :=
  match findUserByEmail db email with
  | none =>
    (.err ⟨401, "INVALID_CREDENTIALS", "Invalid email or password"⟩, db)
  | some user =>
    match user.password with
    | none =>
      (.err ⟨401, "INVALID_CREDENTIALS", "Invalid email or password"⟩, db)
    | some stored =>
      if verifyPassword password stored then
        if user.active then
          if hashExists db (sha256Hex (signRefreshToken ⟨user.id, user.email, user.role⟩ now)) then
            (.threw, db)
          else
            (.ok (signAccessToken ⟨user.id, user.email, user.role⟩)
              (signRefreshToken ⟨user.id, user.email, user.role⟩ now)
              ⟨user.id, user.email, user.name, user.role⟩,
             insertToken db (sha256Hex (signRefreshToken ⟨user.id, user.email, user.role⟩ now))
               user.id (now + sevenDaysMs) now)
        else
          (.err ⟨403, "ACCOUNT_DISABLED", "Account is disabled"⟩, db)
      else
        (.err ⟨401, "INVALID_CREDENTIALS", "Invalid email or password"⟩, db)

/-- The read half of the `POST /refresh` handler: `verifyRefreshToken`
(throwing into the catch block, whose response is the `.error` here), hash,
`findUnique` with its `user` join, and the combined
`!storedToken || storedToken.revokedAt || storedToken.expiresAt < new Date()`
check.  A token row whose user is missing cannot occur under the required
Prisma relation; it is mapped to the catch response, as the JS property
access on `undefined` would be. -/
def refreshReadPhase (db : Db) (now : Int) (raw : String) :
    Except ErrResponse (RefreshTokenRow × User) :=
  if verifySig raw then
    match findTokenByHash db (sha256Hex raw) with
    | none => .error ⟨401, "INVALID_TOKEN", "Invalid or expired refresh token"⟩
    | some row =>
      if row.revokedAt.isSome then
        .error ⟨401, "INVALID_TOKEN", "Invalid or expired refresh token"⟩
      else if row.expiresAt < now then
        .error ⟨401, "INVALID_TOKEN", "Invalid or expired refresh token"⟩
      else
        match findUserById db row.userId with
        | none => .error ⟨401, "INVALID_TOKEN", "Invalid refresh token"⟩
        | some user => .ok (row, user)
  else
    .error ⟨401, "INVALID_TOKEN", "Invalid refresh token"⟩

/-- The write half of the `POST /refresh` handler: the unconditional revoke
of the presented row, issuance of the new pair, and the insert of the new
hash.  A unique-constraint conflict on the insert is an exception inside the
handler's try block, caught and mapped to the catch response — with the
revoke already applied and not rolled back (the two writes share no
transaction). -/
def refreshWritePhase (db : Db) (now : Int) (row : RefreshTokenRow) (user : User) :
    RefreshResult × Db :=
  if hashExists (revokeById db row.id now)
       (sha256Hex (signRefreshToken ⟨user.id, user.email, user.role⟩ now)) then
    (.err ⟨401, "INVALID_TOKEN", "Invalid refresh token"⟩, revokeById db row.id now)
  else
    (.ok (signAccessToken ⟨user.id, user.email, user.role⟩)
      (signRefreshToken ⟨user.id, user.email, user.role⟩ now),
     insertToken (revokeById db row.id now)
       (sha256Hex (signRefreshToken ⟨user.id, user.email, user.role⟩ now))
       user.id (now + sevenDaysMs) now)

/-- The `POST /refresh` handler: read phase then write phase against the
same state (the sequential execution). -/
def refresh (db : Db) (now : Int) (raw : String) : RefreshResult × Db :=
  match refreshReadPhase db now raw with
  | .error e => (.err e, db)
  | .ok (row, user) => refreshWritePhase db now row user

/-- The `POST /logout` handler: hash the submitted token, revoke every
matching row, and report success unconditionally. -/
def logout (db : Db) (now : Int) (raw : String) : LogoutResult × Db :=
  (⟨true⟩, revokeAllByHash db (sha256Hex raw) now)

/-- An auth error result with status 401 and code INVALID_TOKEN (either of
the two refresh-handler messages). -/
def isInvalidTokenErr : RefreshResult → Prop
  | .err e => e.status = 401 ∧ e.code = "INVALID_TOKEN"
  | .ok _ _ => False

/-! ### Concrete states used by witnesses and counterexamples -/

/-- An active user with password "pw". -/
def uActive : User := ⟨"u1", "a@x.com", "Ann", some (hashPassword "pw"), .staff, true⟩

/-- An active user with no stored password. -/
def uNoPass : User := ⟨"u2", "b@x.com", "Bob", none, .manager, true⟩

/-- A deactivated user with password "pw". -/
def uInactive : User := ⟨"u3", "c@x.com", "Cat", some (hashPassword "pw"), .admin, false⟩

/-- The JWT claims of `uActive`. -/
def cActive : Claims := ⟨"u1", "a@x.com", .staff⟩

/-- A refresh token issued to `uActive` at instant 3. -/
def tok3 : String := signRefreshToken cActive 3

/-- A refresh token issued to `uActive` at instant 5. -/
def tok5 : String := signRefreshToken cActive 5

/-- The stored row of `tok3`, unrevoked, expiring far in the future. -/
def rowT0 : RefreshTokenRow := ⟨0, sha256Hex tok3, "u1", 1000000000, none, 3⟩

/-- Base store: three users, one live refresh-token row for `tok3`. -/
def db0 : Db := ⟨[uActive, uNoPass, uInactive], [rowT0], 1⟩

/-- The stored row of `tok3` with `expiresAt` equal to instant 5 exactly. -/
def rowBoundary : RefreshTokenRow := ⟨0, sha256Hex tok3, "u1", 5, none, 3⟩

/-- Store whose only token row expires exactly at instant 5. -/
def dbBoundary : Db := ⟨[uActive], [rowBoundary], 1⟩

/-- A stored row already holding the hash of `tok5` (as a login at instant 5
would store). -/
def rowPlanted : RefreshTokenRow := ⟨0, sha256Hex tok5, "u1", 1000000000, none, 2⟩

/-- Store in which the hash of the token a login by `uActive` at instant 5
would issue is already present. -/
def dbPlanted : Db := ⟨[uActive], [rowPlanted], 1⟩

/-! ### List-level helper lemmas -/

/-- A find? hit in the left part of an append is the hit of the whole. -/
theorem list_find?_append_some {α : Type} {p : α → Bool} {l1 : List α} (l2 : List α)
    {x : α} (h : l1.find? p = some x) : (l1 ++ l2).find? p = some x := by
  rw [List.find?_append, h]
  rfl

/-- A find? miss in the left part of an append defers to the right part. -/
theorem list_find?_append_none {α : Type} {p : α → Bool} {l1 : List α} (l2 : List α)
    (h : l1.find? p = none) : (l1 ++ l2).find? p = l2.find? p := by
  rw [List.find?_append, h]
  rfl

/-- A list has no find? hit iff its any-test is false. -/
theorem list_any_eq_false_iff_find?_none {α : Type} {p : α → Bool} {l : List α} :
    l.any p = false ↔ l.find? p = none := by
  rw [List.any_eq_false, List.find?_eq_none]

/-- The revoke map keyed on a row id preserves the token field of every row. -/
theorem token_revokeIf (r : RefreshTokenRow) (rid : Nat) (n : Int) :
    (if r.id == rid then { r with revokedAt := some n } else r).token = r.token := by
  split <;> rfl

/-- The revoke map keyed on a token hash preserves the token field. -/
theorem token_revokeAllIf (r : RefreshTokenRow) (h : String) (n : Int) :
    (if r.token == h then { r with revokedAt := some n } else r).token = r.token := by
  split <;> rfl

/-- Revoking a row by id does not change which hashes are present. -/
theorem hashExists_revokeById (db : Db) (rid : Nat) (n : Int) (h : String) :
    hashExists (revokeById db rid n) h = hashExists db h := by
  unfold hashExists revokeById
  rw [List.any_map]
  congr 1
  funext r
  simp only [Function.comp_apply, token_revokeIf]

/-- Hash lookups are unchanged by the revoke-by-id map except for the value
of `revokedAt` on the looked-up row. -/
theorem find?_token_map_revoke_general (l : List RefreshTokenRow) (h : String)
    (rid : Nat) (n : Int) :
    (l.map (fun r => if r.id == rid then { r with revokedAt := some n } else r)).find?
        (fun r => r.token == h)
      = (l.find? (fun r => r.token == h)).map
          (fun r => if r.id == rid then { r with revokedAt := some n } else r) := by
  rw [List.find?_map]
  have hpred :
      ((fun r : RefreshTokenRow => r.token == h) ∘
        (fun r => if r.id == rid then { r with revokedAt := some n } else r))
      = (fun r : RefreshTokenRow => r.token == h) := by
    funext r
    simp only [Function.comp_apply, token_revokeIf]
  rw [hpred]

/-- After revoking the row a hash lookup found, the same lookup returns that
row with its `revokedAt` set. -/
theorem find?_token_map_revoke {l : List RefreshTokenRow} {h : String}
    {row : RefreshTokenRow} (n : Int)
    (hf : l.find? (fun r => r.token == h) = some row) :
    (l.map (fun r => if r.id == row.id then { r with revokedAt := some n } else r)).find?
        (fun r => r.token == h)
      = some { row with revokedAt := some n } := by
  rw [find?_token_map_revoke_general, hf]
  simp

/-- A hash lookup miss is preserved by the revoke-by-id map. -/
theorem find?_token_map_revoke_none {l : List RefreshTokenRow} {h : String}
    (rid : Nat) (n : Int)
    (hf : l.find? (fun r => r.token == h) = none) :
    (l.map (fun r => if r.id == rid then { r with revokedAt := some n } else r)).find?
        (fun r => r.token == h)
      = none := by
  rw [find?_token_map_revoke_general, hf]
  rfl

/-- Hash lookup after `revokeAllByHash` of the same hash: the found row (if
any) is the previously found row with `revokedAt` overwritten. -/
theorem find?_token_map_revokeAll (l : List RefreshTokenRow) (h : String) (n : Int) :
    (l.map (fun r => if r.token == h then { r with revokedAt := some n } else r)).find?
        (fun r => r.token == h)
      = (l.find? (fun r => r.token == h)).map
          (fun r => { r with revokedAt := some n }) := by
  rw [List.find?_map]
  have hpred :
      ((fun r : RefreshTokenRow => r.token == h) ∘
        (fun r => if r.token == h then { r with revokedAt := some n } else r))
      = (fun r : RefreshTokenRow => r.token == h) := by
    funext r
    simp only [Function.comp_apply, token_revokeAllIf]
  rw [hpred]
  cases hf : l.find? (fun r => r.token == h) with
  | none => rfl
  | some x =>
    have hx := List.find?_some hf
    rw [Option.map_some', Option.map_some', if_pos hx]

/-! ### Handler-shape lemmas -/

/-- Every error the refresh read phase produces carries status 401 and code
INVALID_TOKEN. -/
theorem readPhase_error_classified {db : Db} {now : Int} {raw : String} {e : ErrResponse}
    (h : refreshReadPhase db now raw = .error e) :
    e.status = 401 ∧ e.code = "INVALID_TOKEN" := by
  unfold refreshReadPhase at h
  split at h
  · split at h
    · injection h with h2
      subst h2
      exact ⟨rfl, rfl⟩
    · split at h
      · injection h with h2
        subst h2
        exact ⟨rfl, rfl⟩
      · split at h
        · injection h with h2
          subst h2
          exact ⟨rfl, rfl⟩
        · split at h
          · injection h with h2
            subst h2
            exact ⟨rfl, rfl⟩
          · exact Except.noConfusion h
  · injection h with h2
    subst h2
    exact ⟨rfl, rfl⟩

/-- A successful read phase means: the signature verified, the hash lookup
found the row, the row is unrevoked and unexpired, and the joined user is
the row's owner. -/
theorem readPhase_ok_elim {db : Db} {now : Int} {raw : String} {row : RefreshTokenRow}
    {user : User} (h : refreshReadPhase db now raw = .ok (row, user)) :
    verifySig raw = true ∧
    findTokenByHash db (sha256Hex raw) = some row ∧
    row.revokedAt = none ∧
    ¬ row.expiresAt < now ∧
    findUserById db row.userId = some user := by
  unfold refreshReadPhase at h
  split at h
  next hsig =>
    split at h
    next hfind => exact Except.noConfusion h
    next row' hfind =>
      split at h
      next hrev => exact Except.noConfusion h
      next hrev =>
        split at h
        next hexp => exact Except.noConfusion h
        next hexp =>
          split at h
          next huser => exact Except.noConfusion h
          next user' huser =>
            injection h with h2
            injection h2 with h3 h4
            subst h3
            subst h4
            refine ⟨hsig, hfind, ?_, hexp, huser⟩
            exact Option.not_isSome_iff_eq_none.mp hrev
  next hsig => exact Except.noConfusion h

/-- Converse introduction form of `readPhase_ok_elim`. -/
theorem readPhase_ok_intro {db : Db} {now : Int} {raw : String} {row : RefreshTokenRow}
    {user : User}
    (hsig : verifySig raw = true)
    (hfind : findTokenByHash db (sha256Hex raw) = some row)
    (hrev : row.revokedAt = none)
    (hexp : ¬ row.expiresAt < now)
    (huser : findUserById db row.userId = some user) :
    refreshReadPhase db now raw = .ok (row, user) := by
  unfold refreshReadPhase
  rw [if_pos hsig, hfind]
  simp [hrev, hexp, huser]

/-- A read-phase error propagates to the refresh result with the state
unchanged. -/
theorem refresh_of_read_error {db : Db} {now : Int} {raw : String} {e : ErrResponse}
    (h : refreshReadPhase db now raw = .error e) :
    refresh db now raw = (.err e, db) := by
  unfold refresh
  rw [h]

/-- A successful read phase hands over to the write phase. -/
theorem refresh_of_read_ok {db : Db} {now : Int} {raw : String} {row : RefreshTokenRow}
    {user : User} (h : refreshReadPhase db now raw = .ok (row, user)) :
    refresh db now raw = refreshWritePhase db now row user := by
  unfold refresh
  rw [h]

/-- The write phase on a conflict: the presented row is already revoked in
the resulting state and no new row is inserted. -/
theorem writePhase_conflict {db : Db} {now : Int} {row : RefreshTokenRow} {user : User}
    (hconf : hashExists db
      (sha256Hex (signRefreshToken ⟨user.id, user.email, user.role⟩ now)) = true) :
    refreshWritePhase db now row user =
      (.err ⟨401, "INVALID_TOKEN", "Invalid refresh token"⟩, revokeById db row.id now) := by
  unfold refreshWritePhase
  rw [hashExists_revokeById, hconf]
  rw [if_pos rfl]

/-- The write phase without a conflict: revoke the presented row, then
insert exactly one fresh row holding the new token's hash. -/
theorem writePhase_ok {db : Db} {now : Int} {row : RefreshTokenRow} {user : User}
    (hconf : hashExists db
      (sha256Hex (signRefreshToken ⟨user.id, user.email, user.role⟩ now)) = false) :
    refreshWritePhase db now row user =
      (.ok (signAccessToken ⟨user.id, user.email, user.role⟩)
        (signRefreshToken ⟨user.id, user.email, user.role⟩ now),
       insertToken (revokeById db row.id now)
         (sha256Hex (signRefreshToken ⟨user.id, user.email, user.role⟩ now))
         user.id (now + sevenDaysMs) now) := by
  unfold refreshWritePhase
  rw [hashExists_revokeById, hconf]
  rw [if_neg (by simp)]

/-- Anatomy of a successful refresh: the read phase succeeded on some row
and user, the new token's hash was fresh, and the results and successor
state are exactly the rotation outcome. -/
theorem refresh_ok_elim {db db2 : Db} {now : Int} {raw acc t1 : String}
    (h : refresh db now raw = (.ok acc t1, db2)) :
    ∃ row user,
      refreshReadPhase db now raw = .ok (row, user) ∧
      hashExists db (sha256Hex (signRefreshToken ⟨user.id, user.email, user.role⟩ now))
        = false ∧
      acc = signAccessToken ⟨user.id, user.email, user.role⟩ ∧
      t1 = signRefreshToken ⟨user.id, user.email, user.role⟩ now ∧
      db2 = insertToken (revokeById db row.id now)
              (sha256Hex (signRefreshToken ⟨user.id, user.email, user.role⟩ now))
              user.id (now + sevenDaysMs) now := by
  cases hr : refreshReadPhase db now raw with
  | error e =>
    rw [refresh_of_read_error hr] at h
    injection h with h1 h2
    exact RefreshResult.noConfusion h1
  | ok p =>
    obtain ⟨row, user⟩ := p
    rw [refresh_of_read_ok hr] at h
    cases hconf : hashExists db
        (sha256Hex (signRefreshToken ⟨user.id, user.email, user.role⟩ now)) with
    | true =>
      rw [writePhase_conflict hconf] at h
      injection h with h1 h2
      exact RefreshResult.noConfusion h1
    | false =>
      rw [writePhase_ok hconf] at h
      injection h with h1 h2
      injection h1 with h3 h4
      exact ⟨row, user, rfl, hconf, h3.symm, h4.symm, h2.symm⟩

/-! ### Login branch lemmas -/

/-- Login with an email matching no user. -/
theorem login_no_user {db : Db} {now : Int} {email password : String}
    (h : findUserByEmail db email = none) :
    login db now email password =
      (.err ⟨401, "INVALID_CREDENTIALS", "Invalid email or password"⟩, db) := by
  unfold login
  rw [h]

/-- Login against a user with no stored password. -/
theorem login_no_password {db : Db} {now : Int} {email password : String} {user : User}
    (hu : findUserByEmail db email = some user) (hp : user.password = none) :
    login db now email password =
      (.err ⟨401, "INVALID_CREDENTIALS", "Invalid email or password"⟩, db) := by
  unfold login
  rw [hu]
  simp [hp]

/-- Login with a password that fails verification. -/
theorem login_bad_password {db : Db} {now : Int} {email password : String} {user : User}
    {stored : String}
    (hu : findUserByEmail db email = some user) (hp : user.password = some stored)
    (hv : verifyPassword password stored = false) :
    login db now email password =
      (.err ⟨401, "INVALID_CREDENTIALS", "Invalid email or password"⟩, db) := by
  unfold login
  rw [hu]
  simp [hp, hv]

/-- Login with verified credentials against a deactivated account. -/
theorem login_inactive {db : Db} {now : Int} {email password : String} {user : User}
    {stored : String}
    (hu : findUserByEmail db email = some user) (hp : user.password = some stored)
    (hv : verifyPassword password stored = true) (ha : user.active = false) :
    login db now email password =
      (.err ⟨403, "ACCOUNT_DISABLED", "Account is disabled"⟩, db) := by
  unfold login
  rw [hu]
  simp [hp, hv, ha]

/-- Login whose fresh token's hash is already stored: the insert throws and
the exception escapes the handler; the state is unchanged. -/
theorem login_conflict {db : Db} {now : Int} {email password : String} {user : User}
    {stored : String}
    (hu : findUserByEmail db email = some user) (hp : user.password = some stored)
    (hv : verifyPassword password stored = true) (ha : user.active = true)
    (hc : hashExists db
      (sha256Hex (signRefreshToken ⟨user.id, user.email, user.role⟩ now)) = true) :
    login db now email password = (.threw, db) := by
  unfold login
  rw [hu]
  simp [hp, hv, ha, hc]

/-- Fully successful login: tokens, public user summary, and exactly one
inserted refresh-token row. -/
theorem login_ok {db : Db} {now : Int} {email password : String} {user : User}
    {stored : String}
    (hu : findUserByEmail db email = some user) (hp : user.password = some stored)
    (hv : verifyPassword password stored = true) (ha : user.active = true)
    (hc : hashExists db
      (sha256Hex (signRefreshToken ⟨user.id, user.email, user.role⟩ now)) = false) :
    login db now email password =
      (.ok (signAccessToken ⟨user.id, user.email, user.role⟩)
        (signRefreshToken ⟨user.id, user.email, user.role⟩ now)
        ⟨user.id, user.email, user.name, user.role⟩,
       insertToken db (sha256Hex (signRefreshToken ⟨user.id, user.email, user.role⟩ now))
         user.id (now + sevenDaysMs) now) := by
  unfold login
  rw [hu]
  simp [hp, hv, ha, hc]

/-- Hash lookup through a Db after `revokeAllByHash` on the same hash. -/
theorem findTokenByHash_revokeAll (db : Db) (h : String) (n : Int) :
    findTokenByHash (revokeAllByHash db h n) h
      = (findTokenByHash db h).map (fun r => { r with revokedAt := some n }) := by
  unfold findTokenByHash revokeAllByHash
  exact find?_token_map_revokeAll db.tokens h n

/-- After a logout with a raw token, a refresh presenting the same raw token
fails with a 401 INVALID_TOKEN error, whatever the state and instants. -/
theorem refresh_after_logout (db : Db) (n m : Int) (raw : String) :
    isInvalidTokenErr (refresh (logout db n raw).2 m raw).1 := by
  cases hsig : verifySig raw with
  | false =>
    have hel : refreshReadPhase (logout db n raw).2 m raw
        = .error ⟨401, "INVALID_TOKEN", "Invalid refresh token"⟩ := by
      unfold refreshReadPhase
      rw [if_neg (by simp [hsig])]
    rw [refresh_of_read_error hel]
    exact ⟨rfl, rfl⟩
  | true =>
    cases hf : findTokenByHash db (sha256Hex raw) with
    | none =>
      have hf2 : findTokenByHash (revokeAllByHash db (sha256Hex raw) n) (sha256Hex raw)
          = none := by
        rw [findTokenByHash_revokeAll, hf]
        rfl
      have hel : refreshReadPhase (logout db n raw).2 m raw
          = .error ⟨401, "INVALID_TOKEN", "Invalid or expired refresh token"⟩ := by
        show refreshReadPhase (revokeAllByHash db (sha256Hex raw) n) m raw = _
        unfold refreshReadPhase
        rw [if_pos hsig, hf2]
      rw [refresh_of_read_error hel]
      exact ⟨rfl, rfl⟩
    | some row =>
      have hf2 : findTokenByHash (revokeAllByHash db (sha256Hex raw) n) (sha256Hex raw)
          = some { row with revokedAt := some n } := by
        rw [findTokenByHash_revokeAll, hf]
        rfl
      have hel : refreshReadPhase (logout db n raw).2 m raw
          = .error ⟨401, "INVALID_TOKEN", "Invalid or expired refresh token"⟩ := by
        show refreshReadPhase (revokeAllByHash db (sha256Hex raw) n) m raw = _
        unfold refreshReadPhase
        rw [if_pos hsig, hf2]
        simp
      rw [refresh_of_read_error hel]
      exact ⟨rfl, rfl⟩

/-! ### Claim theorems -/

/-- C4: for every login where the email matches no user, or the matched user
has no stored password, or password verification fails, the handler replies
with literally the same error — status 401, code INVALID_CREDENTIALS,
message "Invalid email or password" — so the three cases are
indistinguishable to the caller. -/
theorem login_error_collapse (db : Db) (now : Int) (email password : String) :
    (findUserByEmail db email = none →
      (login db now email password).1
        = .err ⟨401, "INVALID_CREDENTIALS", "Invalid email or password"⟩) ∧
    (∀ user, findUserByEmail db email = some user → user.password = none →
      (login db now email password).1
        = .err ⟨401, "INVALID_CREDENTIALS", "Invalid email or password"⟩) ∧
    (∀ user stored, findUserByEmail db email = some user → user.password = some stored →
      verifyPassword password stored = false →
      (login db now email password).1
        = .err ⟨401, "INVALID_CREDENTIALS", "Invalid email or password"⟩) := by
  refine ⟨?_, ?_, ?_⟩
  · intro h
    rw [login_no_user h]
  · intro u hu hp
    rw [login_no_password hu hp]
  · intro u s hu hp hv
    rw [login_bad_password hu hp hv]

/-- Witness for C4: all three indistinguishable failure cases at concrete
inputs against `db0`. -/
theorem login_error_collapse_witness :
    (login db0 7 "nobody@x.com" "pw").1
      = .err ⟨401, "INVALID_CREDENTIALS", "Invalid email or password"⟩ ∧
    (login db0 7 "b@x.com" "pw").1
      = .err ⟨401, "INVALID_CREDENTIALS", "Invalid email or password"⟩ ∧
    (login db0 7 "a@x.com" "wrong").1
      = .err ⟨401, "INVALID_CREDENTIALS", "Invalid email or password"⟩ :=
  ⟨(login_error_collapse db0 7 "nobody@x.com" "pw").1 (by decide),
   (login_error_collapse db0 7 "b@x.com" "pw").2.1 uNoPass (by decide) (by decide),
   (login_error_collapse db0 7 "a@x.com" "wrong").2.2 uActive (hashPassword "pw")
     (by decide) (by decide) (by decide)⟩

/-- C5: a deactivated user with correct credentials receives
ACCOUNT_DISABLED (403); with a wrong password the same user receives
INVALID_CREDENTIALS — the active check runs only after credential
verification succeeds. -/
theorem login_disabled_only_after_verify (db : Db) (now : Int) (email password : String)
    (user : User) (stored : String)
    (hu : findUserByEmail db email = some user)
    (hp : user.password = some stored)
    (ha : user.active = false) :
    (verifyPassword password stored = true →
      (login db now email password).1
        = .err ⟨403, "ACCOUNT_DISABLED", "Account is disabled"⟩) ∧
    (verifyPassword password stored = false →
      (login db now email password).1
        = .err ⟨401, "INVALID_CREDENTIALS", "Invalid email or password"⟩) := by
  constructor
  · intro hv
    rw [login_inactive hu hp hv ha]
  · intro hv
    rw [login_bad_password hu hp hv]

/-- Witness for C5: the deactivated user `uInactive` at concrete inputs. -/
theorem login_disabled_only_after_verify_witness :
    (login db0 7 "c@x.com" "pw").1
      = .err ⟨403, "ACCOUNT_DISABLED", "Account is disabled"⟩ ∧
    (login db0 7 "c@x.com" "bad").1
      = .err ⟨401, "INVALID_CREDENTIALS", "Invalid email or password"⟩ :=
  ⟨(login_disabled_only_after_verify db0 7 "c@x.com" "pw" uInactive (hashPassword "pw")
      (by decide) (by decide) (by decide)).1 (by decide),
   (login_disabled_only_after_verify db0 7 "c@x.com" "bad" uInactive (hashPassword "pw")
      (by decide) (by decide) (by decide)).2 (by decide)⟩

/-- C9: logout always reports success — also when nothing matches or the
matching rows are already revoked; a second logout with the same token also
reports success; and after either call, a refresh presenting that token
fails with a 401 INVALID_TOKEN error. -/
theorem logout_idempotent_success (db : Db) (n1 n2 n3 n4 : Int) (raw : String) :
    (logout db n1 raw).1 = ⟨true⟩ ∧
    (logout (logout db n1 raw).2 n2 raw).1 = ⟨true⟩ ∧
    isInvalidTokenErr (refresh (logout db n1 raw).2 n3 raw).1 ∧
    isInvalidTokenErr (refresh (logout (logout db n1 raw).2 n2 raw).2 n4 raw).1 :=
  ⟨rfl, rfl, refresh_after_logout db n1 n3 raw,
   refresh_after_logout (logout db n1 raw).2 n2 n4 raw⟩

/-- C10: a login returning a structured error (INVALID_CREDENTIALS or
ACCOUNT_DISABLED) leaves the store unchanged: no row inserted, none
modified. -/
theorem login_error_preserves_store (db db2 : Db) (now : Int) (email password : String)
    (e : ErrResponse) (h : login db now email password = (.err e, db2)) :
    db2 = db := by
  unfold login at h
  split at h
  · injection h with h1 h2
    exact h2.symm
  · split at h
    · injection h with h1 h2
      exact h2.symm
    · split at h
      · split at h
        · split at h
          · injection h with h1 h2
            exact LoginResult.noConfusion h1
          · injection h with h1 h2
            exact LoginResult.noConfusion h1
        · injection h with h1 h2
          exact h2.symm
      · injection h with h1 h2
        exact h2.symm

/-- Witness for C10: a failed login against `db0` returns `db0` itself. -/
theorem login_error_preserves_store_witness :
    (login db0 7 "nobody@x.com" "pw").2 = db0 :=
  login_error_preserves_store db0 (login db0 7 "nobody@x.com" "pw").2 7 "nobody@x.com" "pw"
    ⟨401, "INVALID_CREDENTIALS", "Invalid email or password"⟩ (by decide)

/-- Every signed refresh token passes signature verification. -/
theorem verifySig_signRefreshToken (c : Claims) (iat : Int) :
    verifySig (signRefreshToken c iat) = true := by
  unfold verifySig signRefreshToken
  rw [String.data_append, List.isPrefixOf_iff_prefix]
  exact List.prefix_append _ _

/-- A hash absent from the store is still absent after a revoke-by-id. -/
theorem findTokenByHash_revokeById_miss (db : Db) (rid : Nat) (n : Int) (h : String)
    (hmiss : findTokenByHash db h = none) :
    findTokenByHash (revokeById db rid n) h = none :=
  find?_token_map_revoke_none rid n hmiss

/-- Looking up the hash just inserted (absent before) finds exactly the
fresh row. -/
theorem findTokenByHash_insertToken (db : Db) (h uid : String) (e c : Int)
    (hmiss : findTokenByHash db h = none) :
    findTokenByHash (insertToken db h uid e c) h
      = some ⟨db.nextId, h, uid, e, none, c⟩ := by
  unfold findTokenByHash at hmiss
  unfold findTokenByHash insertToken
  rw [list_find?_append_none _ hmiss, List.find?_singleton]
  simp

/-- C2 (amended): a login by an active user with a matching password, whose
freshly issued token's hash is not already stored, returns the access token,
the refresh token, and the public summary holding exactly id, email, name
and role, and appends exactly one refresh-token row: its token field is the
hash of the returned refresh token, `revokedAt` is null, and `expiresAt` is
the issuance instant plus 7 days. -/
theorem login_success_shape (db : Db) (now : Int) (email password : String)
    (user : User) (stored : String)
    (hu : findUserByEmail db email = some user)
    (hp : user.password = some stored)
    (hv : verifyPassword password stored = true)
    (ha : user.active = true)
    (hc : hashExists db
      (sha256Hex (signRefreshToken ⟨user.id, user.email, user.role⟩ now)) = false) :
    ∃ db2,
      login db now email password =
        (.ok (signAccessToken ⟨user.id, user.email, user.role⟩)
          (signRefreshToken ⟨user.id, user.email, user.role⟩ now)
          ⟨user.id, user.email, user.name, user.role⟩, db2) ∧
      db2.tokens = db.tokens ++
        [⟨db.nextId,
          sha256Hex (signRefreshToken ⟨user.id, user.email, user.role⟩ now),
          user.id, now + sevenDaysMs, none, now⟩] ∧
      db2.users = db.users :=
  ⟨_, login_ok hu hp hv ha hc, rfl, rfl⟩

/-- Witness for C2 (amended): the concrete login of `uActive` against `db0`. -/
theorem login_success_shape_witness :
    (login db0 7 "a@x.com" "pw").1
      = .ok (signAccessToken cActive) (signRefreshToken cActive 7)
          ⟨"u1", "a@x.com", "Ann", .staff⟩ := by
  obtain ⟨db2, hmain, -, -⟩ :=
    login_success_shape db0 7 "a@x.com" "pw" uActive (hashPassword "pw")
      (by decide) (by decide) (by decide) (by decide) (by decide)
  rw [hmain]
  rfl

/-- Counterexample to C2 as stated: in `dbPlanted` the active user `uActive`
submits the correct password at instant 5, yet login does not succeed — the
fresh token's hash is already stored, the insert throws, and the exception
escapes the handler. -/
theorem login_success_counterexample :
    findUserByEmail dbPlanted "a@x.com" = some uActive ∧
    uActive.password = some (hashPassword "pw") ∧
    verifyPassword "pw" (hashPassword "pw") = true ∧
    uActive.active = true ∧
    login dbPlanted 5 "a@x.com" "pw" = (.threw, dbPlanted) := by
  decide

/-- C1 (amended): a successful refresh presenting T0 and yielding T1 adds
exactly one row; T0's row is left revoked at the refresh instant; T1's hash
was absent before and is now held by exactly the fresh unrevoked row; any
later refresh presenting T0 fails with the INVALID_TOKEN store error; and a
refresh presenting T1 succeeds whenever T1's row is unexpired and the hash
of the token that call would issue is not already stored. -/
theorem refresh_rotation (db db2 : Db) (now : Int) (t0 acc t1 : String)
    (h : refresh db now t0 = (.ok acc t1, db2)) :
    db2.tokens.length = db.tokens.length + 1 ∧
    (∃ row0, findTokenByHash db (sha256Hex t0) = some row0 ∧
      findTokenByHash db2 (sha256Hex t0) = some { row0 with revokedAt := some now }) ∧
    (findTokenByHash db (sha256Hex t1) = none ∧
      ∃ uid, findTokenByHash db2 (sha256Hex t1)
        = some ⟨db.nextId, sha256Hex t1, uid, now + sevenDaysMs, none, now⟩) ∧
    (∀ m, (refresh db2 m t0).1
        = .err ⟨401, "INVALID_TOKEN", "Invalid or expired refresh token"⟩) ∧
    (∀ m row1 u1, findTokenByHash db2 (sha256Hex t1) = some row1 →
      ¬ row1.expiresAt < m →
      findUserById db2 row1.userId = some u1 →
      hashExists db2 (sha256Hex (signRefreshToken ⟨u1.id, u1.email, u1.role⟩ m)) = false →
      ∃ acc2 t2 db3, refresh db2 m t1 = (.ok acc2 t2, db3)) := by
  obtain ⟨row, user, hread, hconf, hacc, ht1, hdb2⟩ := refresh_ok_elim h
  obtain ⟨hsig, hfind, hrow_rev, hrow_exp, huser⟩ := readPhase_ok_elim hread
  subst ht1
  subst hdb2
  have hfind' : db.tokens.find?
      (fun r => r.token == sha256Hex t0) = some row := hfind
  have hnone1 : db.tokens.find?
      (fun r => r.token ==
        sha256Hex (signRefreshToken ⟨user.id, user.email, user.role⟩ now)) = none :=
    list_any_eq_false_iff_find?_none.mp hconf
  have hrevoked : findTokenByHash
      (insertToken (revokeById db row.id now)
        (sha256Hex (signRefreshToken ⟨user.id, user.email, user.role⟩ now))
        user.id (now + sevenDaysMs) now) (sha256Hex t0)
      = some { row with revokedAt := some now } :=
    list_find?_append_some _ (find?_token_map_revoke now hfind')
  have hnew : findTokenByHash
      (insertToken (revokeById db row.id now)
        (sha256Hex (signRefreshToken ⟨user.id, user.email, user.role⟩ now))
        user.id (now + sevenDaysMs) now)
      (sha256Hex (signRefreshToken ⟨user.id, user.email, user.role⟩ now))
      = some ⟨db.nextId,
          sha256Hex (signRefreshToken ⟨user.id, user.email, user.role⟩ now),
          user.id, now + sevenDaysMs, none, now⟩ :=
    findTokenByHash_insertToken (revokeById db row.id now)
      (sha256Hex (signRefreshToken ⟨user.id, user.email, user.role⟩ now))
      user.id (now + sevenDaysMs) now
      (findTokenByHash_revokeById_miss db row.id now
        (sha256Hex (signRefreshToken ⟨user.id, user.email, user.role⟩ now))
        (list_any_eq_false_iff_find?_none.mp hconf))
  refine ⟨?_, ⟨row, hfind, hrevoked⟩, ⟨list_any_eq_false_iff_find?_none.mp hconf,
    user.id, hnew⟩, ?_, ?_⟩
  · simp [insertToken, revokeById]
  · intro m
    have hel : refreshReadPhase
        (insertToken (revokeById db row.id now)
          (sha256Hex (signRefreshToken ⟨user.id, user.email, user.role⟩ now))
          user.id (now + sevenDaysMs) now) m t0
        = .error ⟨401, "INVALID_TOKEN", "Invalid or expired refresh token"⟩ := by
      unfold refreshReadPhase
      rw [if_pos hsig, hrevoked]
      simp
    rw [refresh_of_read_error hel]
  · intro m row1 u1 h1 h2 h3 h4
    have hrow1 : row1 = ⟨db.nextId,
        sha256Hex (signRefreshToken ⟨user.id, user.email, user.role⟩ now),
        user.id, now + sevenDaysMs, none, now⟩ :=
      (Option.some.inj (hnew.symm.trans h1)).symm
    have hread2 : refreshReadPhase
        (insertToken (revokeById db row.id now)
          (sha256Hex (signRefreshToken ⟨user.id, user.email, user.role⟩ now))
          user.id (now + sevenDaysMs) now) m
        (signRefreshToken ⟨user.id, user.email, user.role⟩ now)
        = .ok (row1, u1) :=
      readPhase_ok_intro (verifySig_signRefreshToken _ _) h1 (by rw [hrow1]) h2 h3
    exact ⟨_, _, _, by rw [refresh_of_read_ok hread2, writePhase_ok h4]⟩

/-- Witness for C1 (amended): the rotation of `tok3` against `db0` at
instant 5 succeeds, and the second refresh presenting `tok3` at instant 9
receives the INVALID_TOKEN store error. -/
theorem refresh_rotation_witness :
    (refresh (refresh db0 5 tok3).2 9 tok3).1
      = .err ⟨401, "INVALID_TOKEN", "Invalid or expired refresh token"⟩ :=
  (refresh_rotation db0 (refresh db0 5 tok3).2 5 tok3 (signAccessToken cActive) tok5
    (by decide)).2.2.2.1 9

/-- Counterexample to C1 as stated: refreshing `tok3` at instant 5 succeeds
and yields `tok5`, but a refresh presenting `tok5` at the same instant 5
does not succeed — it re-signs the identical token, collides with the row
just stored, and the insert conflict is caught as INVALID_TOKEN. -/
theorem refresh_rotation_counterexample :
    (refresh db0 5 tok3).1 = .ok (signAccessToken cActive) tok5 ∧
    (refresh (refresh db0 5 tok3).2 5 tok5).1
      = .err ⟨401, "INVALID_TOKEN", "Invalid refresh token"⟩ := by
  decide

/-- C3 (amended): for a raw token passing signature verification, refresh
succeeds iff the hash lookup finds a row that is unrevoked, whose
`expiresAt` is not strictly before the current instant (the boundary
instant still passes), whose owning user exists, and the hash of the token
to be issued is not already stored; every failing refresh answers with
status 401 and code INVALID_TOKEN. -/
theorem refresh_success_characterization (db : Db) (now : Int) (raw : String)
    (hsig : verifySig raw = true) :
    ((∃ acc t1 db2, refresh db now raw = (.ok acc t1, db2)) ↔
      (∃ row user, findTokenByHash db (sha256Hex raw) = some row ∧
        row.revokedAt = none ∧ ¬ row.expiresAt < now ∧
        findUserById db row.userId = some user ∧
        hashExists db
          (sha256Hex (signRefreshToken ⟨user.id, user.email, user.role⟩ now)) = false)) ∧
    (∀ e db2, refresh db now raw = (.err e, db2) →
      e.status = 401 ∧ e.code = "INVALID_TOKEN") := by
  constructor
  · constructor
    · rintro ⟨acc, t1, db2, h⟩
      obtain ⟨row, user, hread, hconf, -, -, -⟩ := refresh_ok_elim h
      obtain ⟨-, hfind, hrev, hexp, huser⟩ := readPhase_ok_elim hread
      exact ⟨row, user, hfind, hrev, hexp, huser, hconf⟩
    · rintro ⟨row, user, hfind, hrev, hexp, huser, hconf⟩
      exact ⟨_, _, _, by
        rw [refresh_of_read_ok (readPhase_ok_intro hsig hfind hrev hexp huser),
          writePhase_ok hconf]⟩
  · intro e db2 h
    cases hr : refreshReadPhase db now raw with
    | error e2 =>
      rw [refresh_of_read_error hr] at h
      injection h with h1 h2
      injection h1 with he2
      subst he2
      exact readPhase_error_classified hr
    | ok p =>
      obtain ⟨row, user⟩ := p
      rw [refresh_of_read_ok hr] at h
      cases hconf : hashExists db
          (sha256Hex (signRefreshToken ⟨user.id, user.email, user.role⟩ now)) with
      | true =>
        rw [writePhase_conflict hconf] at h
        injection h with h1 h2
        injection h1 with he2
        subst he2
        exact ⟨rfl, rfl⟩
      | false =>
        rw [writePhase_ok hconf] at h
        injection h with h1 h2
        exact RefreshResult.noConfusion h1

/-- Witness for C3 (amended): the live row of `tok3` in `db0` satisfies the
success characterization at instant 5. -/
theorem refresh_success_characterization_witness :
    ∃ acc t1 db2, refresh db0 5 tok3 = (.ok acc t1, db2) :=
  (refresh_success_characterization db0 5 tok3 (by decide)).1.mpr
    ⟨rowT0, uActive, by decide, by decide, by decide, by decide, by decide⟩

/-- Counterexample to C3 as stated, in both directions.  First: in
`dbBoundary` the row expires exactly at instant 5, which is not strictly in
the future, yet refresh at instant 5 succeeds (the code tests
`expiresAt < now`).  Second: in `db0` the row of `tok3` exists, is
unrevoked and far from expiry at instant 3, yet refresh at instant 3 fails
— the re-signed token equals `tok3` itself, the insert collides and the
conflict is caught as INVALID_TOKEN. -/
theorem refresh_success_characterization_counterexample :
    ((refresh dbBoundary 5 tok3).1 = .ok (signAccessToken cActive) tok5 ∧
      rowBoundary.expiresAt = 5) ∧
    (findTokenByHash db0 (sha256Hex tok3) = some rowT0 ∧
      rowT0.revokedAt = none ∧
      (3 : Int) < rowT0.expiresAt ∧
      (refresh db0 3 tok3).1 = .err ⟨401, "INVALID_TOKEN", "Invalid refresh token"⟩) := by
  decide

/-- C6 (amended): a refresh failing during verification or the store checks
returns its error with the store unchanged; a refresh failing at the insert
of the new row leaves the presented row revoked and inserts nothing. -/
theorem refresh_error_states (db : Db) (now : Int) (raw : String) :
    (∀ e, refreshReadPhase db now raw = .error e →
      refresh db now raw = (.err e, db)) ∧
    (∀ row user, refreshReadPhase db now raw = .ok (row, user) →
      hashExists db
        (sha256Hex (signRefreshToken ⟨user.id, user.email, user.role⟩ now)) = true →
      refresh db now raw
        = (.err ⟨401, "INVALID_TOKEN", "Invalid refresh token"⟩,
           revokeById db row.id now)) := by
  constructor
  · intro e he
    exact refresh_of_read_error he
  · intro row user hok hconf
    rw [refresh_of_read_ok hok, writePhase_conflict hconf]

/-- Witness for C6 (amended): a store-check failure leaves `db0` unchanged;
the conflicting refresh of `tok3` at its own issuance instant leaves only
the revoked row behind. -/
theorem refresh_error_states_witness :
    refresh db0 5 "rt.junk"
      = (.err ⟨401, "INVALID_TOKEN", "Invalid or expired refresh token"⟩, db0) ∧
    refresh db0 3 tok3
      = (.err ⟨401, "INVALID_TOKEN", "Invalid refresh token"⟩, revokeById db0 0 3) :=
  ⟨(refresh_error_states db0 5 "rt.junk").1
      ⟨401, "INVALID_TOKEN", "Invalid or expired refresh token"⟩ (by rfl),
   (refresh_error_states db0 3 tok3).2 rowT0 uActive (by rfl) (by decide)⟩

/-- Counterexample to C6 as stated: the refresh of `tok3` against `db0` at
instant 3 returns an error, yet the store is changed — the presented row
was already revoked before the insert failed. -/
theorem refresh_error_states_counterexample :
    (refresh db0 3 tok3).1 = .err ⟨401, "INVALID_TOKEN", "Invalid refresh token"⟩ ∧
    (refresh db0 3 tok3).2 ≠ db0 := by
  decide

/-- C7: the revoke step is `update({ where: { id } })`, unconditioned on the
prior `revokedAt`.  With the two read phases both executed against the
initial store before either write phase — the racy interleaving of two
concurrent refresh calls presenting the same raw token — both calls return
fresh token pairs instead of exactly one. -/
theorem refresh_concurrent_both_succeed :
    refreshReadPhase db0 5 tok3 = .ok (rowT0, uActive) ∧
    refreshReadPhase db0 6 tok3 = .ok (rowT0, uActive) ∧
    (refreshWritePhase db0 5 rowT0 uActive).1
      = .ok (signAccessToken cActive) (signRefreshToken cActive 5) ∧
    (refreshWritePhase (refreshWritePhase db0 5 rowT0 uActive).2 6 rowT0 uActive).1
      = .ok (signAccessToken cActive) (signRefreshToken cActive 6) :=
  ⟨rfl, rfl, by decide, by decide⟩

/-- C8 (amended): an insert hitting an existing hash is never retried.  On
refresh the conflict is caught and surfaced as the 401 INVALID_TOKEN
response; on login the conflict escapes the handler with no row inserted.
In neither case does the code retry with a fresh token. -/
theorem conflict_never_retried (db : Db) (now : Int) :
    (∀ raw row user, refreshReadPhase db now raw = .ok (row, user) →
      hashExists db
        (sha256Hex (signRefreshToken ⟨user.id, user.email, user.role⟩ now)) = true →
      (refresh db now raw).1
        = .err ⟨401, "INVALID_TOKEN", "Invalid refresh token"⟩) ∧
    (∀ email password user stored,
      findUserByEmail db email = some user → user.password = some stored →
      verifyPassword password stored = true → user.active = true →
      hashExists db
        (sha256Hex (signRefreshToken ⟨user.id, user.email, user.role⟩ now)) = true →
      login db now email password = (.threw, db)) := by
  constructor
  · intro raw row user hok hconf
    rw [refresh_of_read_ok hok, writePhase_conflict hconf]
  · intro email password user stored hu hp hv ha hc
    exact login_conflict hu hp hv ha hc

/-- Witness for C8 (amended): the conflicting refresh and the conflicting
login at concrete inputs. -/
theorem conflict_never_retried_witness :
    (refresh db0 3 tok3).1 = .err ⟨401, "INVALID_TOKEN", "Invalid refresh token"⟩ ∧
    login dbPlanted 5 "a@x.com" "pw" = (.threw, dbPlanted) :=
  ⟨(conflict_never_retried db0 3).1 tok3 rowT0 uActive (by rfl) (by decide),
   (conflict_never_retried dbPlanted 5).2 "a@x.com" "pw" uActive (hashPassword "pw")
     (by decide) (by decide) (by decide) (by decide) (by decide)⟩

/-- Counterexample to C8 as stated: with the hash of `tok5` already stored,
the valid login at instant 5 ends in an escaped exception — the caller's
request fails and nothing is retried (no row is inserted on the refresh
conflict either). -/
theorem conflict_never_retried_counterexample :
    hashExists dbPlanted (sha256Hex tok5) = true ∧
    login dbPlanted 5 "a@x.com" "pw" = (.threw, dbPlanted) ∧
    (refresh db0 3 tok3).2.tokens.length = db0.tokens.length := by
  decide
